import Mathlib

/-!
# SecureUSB — formal model of the authorization daemon

Shallow embedding of the SecureUSB daemon's authorization core:
* `src/utils/config.py` — configuration (timeout clamping),
* `src/auth/totp.py` — TOTP verification and recovery-code hashing,
* `src/auth/storage.py` — persisted credential store,
* `src/daemon/authorization.py` — the sysfs device-authorization port,
* `src/daemon/service.py` — the daemon's state machine handlers.

Pure functions are translated directly; stateful code is explicit state
passing.  External collaborators (the SHA-256 primitive, the pyotp code
generator, the sysfs filesystem, GLib timers) are parameters of the model.
-/

namespace SecureUSB

/-! ## String helpers (Python `str` operations, ASCII model) -/

/-- Python `c.upper()` on one character (ASCII range). -/
def pyUpperChar (c : Char) : Char :=
  if 97 ≤ c.toNat ∧ c.toNat ≤ 122 then Char.ofNat (c.toNat - 32) else c

/-- Python `c.lower()` on one character (ASCII range). -/
def pyLowerChar (c : Char) : Char :=
  if 65 ≤ c.toNat ∧ c.toNat ≤ 90 then Char.ofNat (c.toNat + 32) else c

/-- Python `s.upper()`. -/
def pyUpper (s : String) : String := String.mk (s.toList.map pyUpperChar)

/-- Python `s.lower()`. -/
def pyLower (s : String) : String := String.mk (s.toList.map pyLowerChar)

/-- Python `s.replace('-', '')`. -/
def stripDashes (s : String) : String :=
  String.mk (s.toList.filter (fun c => c ≠ '-'))

/-- Python `s.replace(' ', '').replace('-', '')` (normalization in
`TOTPAuthenticator.verify_code`). -/
def stripSpacesDashes (s : String) : String :=
  String.mk (s.toList.filter (fun c => c ≠ ' ' ∧ c ≠ '-'))

/-- Python `s.isdigit()` (ASCII digits). -/
def pyIsDigit (s : String) : Bool :=
  s ≠ "" && s.toList.all Char.isDigit

/-! ## `src/utils/config.py` -/

/-- In-memory configuration relevant to the daemon (`Config.config`,
`general` section).  `save_ok` models whether writing `config.json`
succeeds (`Config.save`). -/
structure Config where
  enabled : Bool
  timeout_seconds : Int
  save_ok : Bool
  deriving Repr, DecidableEq

namespace Config

/-- `Config.get_timeout`: read `general.timeout_seconds`. -/
def get_timeout (c : Config) : Int := c.timeout_seconds

/-- `Config.set_timeout`: clamp to `[10, 300]`, store in memory, then
`save` (the in-memory value is set before the save attempt, and `save`'s
result is returned). -/
def set_timeout (c : Config) (seconds : Int) : Config × Bool :=
  let s := max 10 (min 300 seconds)
  ({ c with timeout_seconds := s }, c.save_ok)

/-- `Config.is_enabled`. -/
def is_enabled (c : Config) : Bool := c.enabled

end Config

/-! ## `src/auth/totp.py` — `RecoveryCodeManager` -/

namespace RecoveryCodeManager

/-- `RecoveryCodeManager.hash_code`: strip dashes, uppercase, SHA-256.
The SHA-256 primitive is a parameter `sha` of the model. -/
def hash_code (sha : String → String) (code : String) : String :=
  sha (pyUpper (stripDashes code))

/-- `RecoveryCodeManager.verify_code`: hash the candidate and compare. -/
def verify_code (sha : String → String) (code hashed_code : String) : Bool :=
  hash_code sha code == hashed_code

end RecoveryCodeManager

/-! ## `src/daemon/authorization.py` -/

/-- `AuthorizationMode` enum.  In the Python source `POWER_ONLY` has the
same value `"0"` as `BLOCKED` (it is an alias at the enum level). -/
inductive AuthorizationMode where
  | FULL_ACCESS
  | BLOCKED
  | POWER_ONLY
  deriving Repr, DecidableEq

/-- The sysfs string each mode writes (`AuthorizationMode.value`). -/
def AuthorizationMode.value : AuthorizationMode → String
  | .FULL_ACCESS => "1"
  | .BLOCKED => "0"
  | .POWER_ONLY => "0"

/-- The regex `^[\w\-.:]+$` in `USBAuthorization.get_device_path`
(ASCII `\w`). -/
def valid_device_id (device_id : String) : Bool :=
  device_id ≠ "" &&
    device_id.toList.all (fun c => c.isAlphanum || c = '_' || c = '-' || c = '.' || c = ':')

/-- Environment of the sysfs port: facts about the OS that
`USBAuthorization` observes. -/
structure SysfsEnv where
  /-- `os.geteuid() == 0`. -/
  is_root : Bool
  /-- whether `/sys/bus/usb/devices/<id>/authorized` exists. -/
  authorized_exists : String → Bool
  /-- whether writing to that file raises (permission denied, I/O error). -/
  write_fails : String → Bool
  /-- interface subdirectory names under the device (for `_unbind_interfaces`). -/
  interfaces : String → List String
  /-- whether iterating the device directory raises. -/
  iterdir_fails : String → Bool
  /-- whether an interface has a bound driver with a writable `unbind` file. -/
  unbind_possible : String → Bool

/-- Observable effects of the sysfs port: writes performed. -/
structure SysfsState where
  /-- writes to `<id>/authorized` files: `(device_id, value)` in order. -/
  authorized_writes : List (String × String)
  /-- interface names written to driver `unbind` files. -/
  unbind_writes : List String
  deriving Repr, DecidableEq

/-- `USBAuthorization.authorize_device`.  A raised exception
(`ValueError` from `get_device_path`, which line 88 of the source calls
outside any `try`) is modelled as `Except.error`; all handled failures
return `.ok (false, _)`. -/
def authorize_device (env : SysfsEnv) (st : SysfsState) (device_id : String)
    (mode : AuthorizationMode) : Except String (Bool × SysfsState) :=
  if ¬env.is_root then .ok (false, st)
  else if ¬valid_device_id device_id then
    .error ("Invalid device ID: " ++ device_id)
  else if ¬env.authorized_exists device_id then .ok (false, st)
  else if env.write_fails device_id then .ok (false, st)
  else .ok (true, { st with
    authorized_writes := st.authorized_writes ++ [(device_id, mode.value)] })

/-- `USBAuthorization.block_device`. -/
def block_device (env : SysfsEnv) (st : SysfsState) (device_id : String) :
    Except String (Bool × SysfsState) :=
  authorize_device env st device_id .BLOCKED

/-- `USBAuthorization.allow_device`. -/
def allow_device (env : SysfsEnv) (st : SysfsState) (device_id : String) :
    Except String (Bool × SysfsState) :=
  authorize_device env st device_id .FULL_ACCESS

/-- `USBAuthorization._unbind_interfaces`: best-effort unbind of every
interface subdirectory (name containing `':'`); per-interface failures
are swallowed, a failure to iterate returns `false`. -/
def unbind_interfaces (env : SysfsEnv) (st : SysfsState) (device_id : String) :
    Bool × SysfsState :=
  if env.iterdir_fails device_id then (false, st)
  else
    let targets := (env.interfaces device_id).filter
      (fun name => name.toList.contains ':' && env.unbind_possible name)
    (true, { st with unbind_writes := st.unbind_writes ++ targets })

/-- `USBAuthorization.set_power_only_mode`: block first, then unbind
interfaces. -/
def set_power_only_mode (env : SysfsEnv) (st : SysfsState) (device_id : String) :
    Except String (Bool × SysfsState) :=
  match block_device env st device_id with
  | .error e => .error e
  | .ok (false, st') => .ok (false, st')
  | .ok (true, st') => .ok (unbind_interfaces env st' device_id)

/-! ## `src/auth/totp.py` — `TOTPAuthenticator`

The pyotp primitive is a parameter `gen : Int → String` giving the code
generated for a given time-step counter (`pyotp.TOTP.at`); `verify(code,
valid_window=w)` accepts iff the code equals `gen` at some counter within
`±w` of the current one.  The current time `now` (seconds) is an explicit
argument in place of `time.time()`. -/

/-- Mutable state of a `TOTPAuthenticator` instance: the anti-replay
memory (`_last_used_code`, `_last_used_time`). -/
structure TOTPAuthenticator where
  last_used_code : Option String
  last_used_time : Nat
  deriving Repr, DecidableEq

namespace TOTPAuthenticator

/-- `pyotp.TOTP.verify(code, valid_window=w)` at time `now` with
generator `gen`: the code matches the counter `now / 30 + i` for some
`i ∈ [-w, w]`. -/
def pyotpVerify (gen : Int → String) (now : Nat) (w : Nat) (code : String) : Bool :=
  (List.range (2 * w + 1)).any
    (fun k => gen ((now / 30 : Nat) + (k : Int) - (w : Int)) == code)

/-- `TOTPAuthenticator.verify_code` (window argument passed explicitly;
the source's default is `1`). -/
def verify_code (gen : Int → String) (now : Nat) (t : TOTPAuthenticator)
    (code : String) (window : Nat) : TOTPAuthenticator × Bool :=
  let w := min 5 window
  let code := stripSpacesDashes code
  if ¬(pyIsDigit code ∧ code.length = 6) then (t, false)
  else if t.last_used_code == some code ∧ now < t.last_used_time + 30 then
    (t, false)
  else
    let is_valid := pyotpVerify gen now w code
    if is_valid then
      ({ last_used_code := some code, last_used_time := now }, true)
    else (t, false)

end TOTPAuthenticator

/-! ## `src/auth/storage.py` — `SecureStorage`

The encrypted file `auth.enc` is modelled by its decrypted contents;
`save_fails` models an I/O failure writing it. -/

/-- Persisted credential store: `none` when `auth.enc` is absent or
unreadable, otherwise the TOTP secret and the list of recovery-code
hashes. -/
structure SecureStorage where
  auth_data : Option (String × List String)
  deriving Repr, DecidableEq

namespace SecureStorage

/-- `SecureStorage.save_auth_data`: overwrite the store, `false` on I/O
failure (store unchanged). -/
def save_auth_data (save_fails : Bool) (s : SecureStorage)
    (secret : String) (recovery_codes : List String) : SecureStorage × Bool :=
  if save_fails then (s, false)
  else ({ auth_data := some (secret, recovery_codes) }, true)

/-- `SecureStorage.load_auth_data`. -/
def load_auth_data (s : SecureStorage) : Option (String × List String) :=
  s.auth_data

/-- `SecureStorage.remove_recovery_code`: reload, drop the hash if
present, persist.  Returns `false` when the store is unreadable, the
hash is absent, or saving fails. -/
def remove_recovery_code (save_fails : Bool) (s : SecureStorage)
    (code_hash : String) : SecureStorage × Bool :=
  match s.auth_data with
  | none => (s, false)
  | some (secret, codes) =>
    if code_hash ∈ codes then
      save_auth_data save_fails s secret (codes.erase code_hash)
    else (s, false)

end SecureStorage

/-! ## `src/daemon/service.py` — the daemon state machine -/

/-- `USBDevice.to_dict` / the `device_info` dictionaries the handlers
pass around.  An absent serial is the empty string (falsy in Python). -/
structure DeviceInfo where
  device_id : String
  device_path : String
  vendor_id : String
  product_id : String
  vendor_name : String
  product_name : String
  serial_number : String
  deriving Repr, DecidableEq

/-- `EventAction` values used by the daemon handlers
(`src/utils/logger.py`). -/
inductive EventAction where
  | DEVICE_CONNECTED
  | DEVICE_AUTHORIZED
  | DEVICE_AUTHORIZED_POWER_ONLY
  | DEVICE_DENIED
  | DEVICE_DISCONNECTED
  | AUTH_FAILED
  | AUTH_SUCCESS
  deriving Repr, DecidableEq

/-- One row appended by `USBLogger.log_event`; omitted keyword arguments
are `none`. -/
structure AuditEvent where
  action : EventAction
  device_path : Option String
  vendor_id : Option String
  product_id : Option String
  vendor_name : Option String
  product_name : Option String
  serial_number : Option String
  auth_method : Option String
  success : Option Bool
  details : Option String
  deriving Repr, DecidableEq

/-- An `AuditEvent` with every optional field absent (keyword defaults of
`log_event`). -/
def AuditEvent.base (action : EventAction) : AuditEvent :=
  ⟨action, none, none, none, none, none, none, none, none, none⟩

/-- Calls made by the service to the `USBAuthorization` port. -/
inductive PortCall where
  | allow (device_id : String)
  | block (device_id : String)
  | power_only (device_id : String)
  deriving Repr, DecidableEq

/-- D-Bus signals emitted by the service. -/
inductive Signal where
  | device_connected (info : DeviceInfo)
  | device_disconnected (device_id : String)
  | authorization_result (device_id : String) (result : String) (success : Bool)
  deriving Repr, DecidableEq

/-- Read-only collaborators of the service handlers. -/
structure Env where
  /-- pyotp code generator (time-step counter → code). -/
  gen : Int → String
  /-- the SHA-256 primitive for recovery-code hashing. -/
  sha : String → String
  /-- whether a given port call succeeds at the OS level. -/
  portOk : PortCall → Bool
  /-- `DeviceWhitelist.is_whitelisted`. -/
  whitelisted : String → Bool
  /-- whether writing `auth.enc` fails (`SecureStorage.save_auth_data`). -/
  storage_save_fails : Bool

/-- The authentication-related fields of the daemon (`self.totp_auth`,
`self.recovery_codes`, `self.storage`) plus the current time, grouped
because `_verify_authentication` reads and writes exactly these. -/
structure AuthState where
  now : Nat
  totp_auth : Option TOTPAuthenticator
  recovery_codes : List String
  storage : SecureStorage
  deriving Repr, DecidableEq

/-- The mutable state of `SecureUSBDaemon` observed by the claims, plus
the observable effect streams (audit rows, port calls, signals) and a
model of GLib's timer table. -/
structure ServiceState where
  auth : AuthState
  config : Config
  /-- `self.pending_authorizations` (`device_id → device_info`). -/
  pending_authorizations : List (String × DeviceInfo)
  /-- `self.timeout_timers` (`device_id → GLib source id`). -/
  timeout_timers : List (String × Nat)
  /-- live GLib timeout sources: `(source id, absolute deadline)`. -/
  glib_timers : List (Nat × Nat)
  /-- next GLib source id handed out by `timeout_add_seconds`. -/
  next_source_id : Nat
  /-- rows appended to the audit log, oldest first. -/
  events : List AuditEvent
  /-- calls issued to `USBAuthorization`, oldest first. -/
  port_calls : List PortCall
  /-- D-Bus signals emitted, oldest first. -/
  signals : List Signal
  /-- serials passed to `DeviceWhitelist.update_usage`. -/
  whitelist_usage : List String
  deriving Repr, DecidableEq

namespace ServiceState

/-- Python dict lookup on an association list (keys unique). -/
def dictGet : List (String × α) → String → Option α
  | [], _ => none
  | p :: rest, k => if p.1 = k then some p.2 else dictGet rest k

/-- Python `d[k] = v` (replace the unique existing binding in place,
else append — insertion order preserved, as for a `dict`). -/
def dictSet : List (String × α) → String → α → List (String × α)
  | [], k, v => [(k, v)]
  | p :: rest, k, v => if p.1 = k then (k, v) :: rest else p :: dictSet rest k v

/-- Python `del d[k]`. -/
def dictDel (d : List (String × α)) (k : String) : List (String × α) :=
  d.filter (fun p => p.1 != k)

end ServiceState

namespace Daemon

open ServiceState

/-- `SecureUSBDaemon._verify_authentication`, recovery-code part: scan
`self.recovery_codes` in order, first hash matching the candidate wins;
the persisted removal's result is ignored by the caller (source line
277), the in-memory list drops the hash, and success is returned. -/
def verify_recovery (env : Env) (a : AuthState) (code : String) : AuthState × Bool :=
  match a.recovery_codes.find?
      (fun h => RecoveryCodeManager.verify_code env.sha code h) with
  | some h =>
    let st' :=
      (SecureStorage.remove_recovery_code env.storage_save_fails a.storage h).1
    ({ a with storage := st', recovery_codes := a.recovery_codes.erase h }, true)
  | none => (a, false)

/-- `SecureUSBDaemon._verify_authentication`: empty code fails; TOTP is
tried first (when configured), then the recovery codes. -/
def verify_authentication (env : Env) (a : AuthState) (code : String) :
    AuthState × Bool :=
  if code = "" then (a, false)
  else
    match a.totp_auth with
    | some t =>
      let r := TOTPAuthenticator.verify_code env.gen a.now t code 1
      let a' := { a with totp_auth := some r.1 }
      if r.2 then (a', true) else verify_recovery env a' code
    | none => verify_recovery env a code

/-- The `DEVICE_CONNECTED` / `DEVICE_DISCONNECTED` audit row (all device
fields, no success/details). -/
def deviceEvent (action : EventAction) (d : DeviceInfo) : AuditEvent :=
  { AuditEvent.base action with
    device_path := some d.device_path, vendor_id := some d.vendor_id,
    product_id := some d.product_id, vendor_name := some d.vendor_name,
    product_name := some d.product_name, serial_number := some d.serial_number }

/-- `SecureUSBDaemon._deny_device`: block at the port (result ignored),
log a `DEVICE_DENIED` row with details `"User denied authorization"`,
emit the result signal, drop the pending entry. -/
def deny_device (s : ServiceState) (device_id : String) (info : DeviceInfo) :
    ServiceState :=
  let ev := { deviceEvent .DEVICE_DENIED info with
    success := some true, details := some "User denied authorization" }
  { s with
    port_calls := s.port_calls ++ [.block device_id],
    events := s.events ++ [ev],
    signals := s.signals ++ [.authorization_result device_id "denied" false],
    pending_authorizations := dictDel s.pending_authorizations device_id }

/-- `SecureUSBDaemon._authorize_device_full`. -/
def authorize_device_full (env : Env) (s : ServiceState) (device_id : String)
    (info : DeviceInfo) : ServiceState × String :=
  let s := { s with port_calls := s.port_calls ++ [.allow device_id] }
  if env.portOk (.allow device_id) then
    let ev := { deviceEvent .DEVICE_AUTHORIZED info with
      auth_method := some "totp", success := some true }
    let s := { s with events := s.events ++ [ev] }
    let s :=
      if info.serial_number ≠ "" ∧ env.whitelisted info.serial_number then
        { s with whitelist_usage := s.whitelist_usage ++ [info.serial_number] }
      else s
    ({ s with
        signals := s.signals ++ [.authorization_result device_id "authorized" true],
        pending_authorizations := dictDel s.pending_authorizations device_id },
      "success")
  else (s, "error")

/-- `SecureUSBDaemon._authorize_device_power_only`. -/
def authorize_device_power_only (env : Env) (s : ServiceState)
    (device_id : String) (info : DeviceInfo) : ServiceState × String :=
  let s := { s with port_calls := s.port_calls ++ [.power_only device_id] }
  if env.portOk (.power_only device_id) then
    let ev := { deviceEvent .DEVICE_AUTHORIZED_POWER_ONLY info with
      auth_method := some "totp", success := some true,
      details := some "Power-only mode (charging only)" }
    ({ s with
        events := s.events ++ [ev],
        signals := s.signals ++ [.authorization_result device_id "power_only" true],
        pending_authorizations := dictDel s.pending_authorizations device_id },
      "success")
  else (s, "error")

/-- The `AUTH_FAILED` row logged by `_handle_authorization_request`
(no vendor/product names). -/
def authFailedEvent (info : DeviceInfo) : AuditEvent :=
  { AuditEvent.base .AUTH_FAILED with
    device_path := some info.device_path, vendor_id := some info.vendor_id,
    product_id := some info.product_id, serial_number := some info.serial_number,
    success := some false, details := some "Invalid TOTP code or recovery code" }

/-- The `AUTH_SUCCESS` row logged by `_handle_authorization_request`
(serial, method and success only). -/
def authSuccessEvent (info : DeviceInfo) : AuditEvent :=
  { AuditEvent.base .AUTH_SUCCESS with
    serial_number := some info.serial_number,
    auth_method := some "totp", success := some true }

/-- `SecureUSBDaemon._handle_authorization_request`: cancel the timeout
timer first (whether or not the device is pending), handle `deny`
without verification, otherwise verify the code and dispatch on the
mode.  The pending table is never consulted before acting. -/
def handle_authorization_request (env : Env) (s : ServiceState)
    (info : DeviceInfo) (code mode : String) : ServiceState × String :=
  let device_id := info.device_id
  let s :=
    match dictGet s.timeout_timers device_id with
    | some tid =>
      { s with glib_timers := s.glib_timers.filter (fun p => p.1 ≠ tid),
               timeout_timers := dictDel s.timeout_timers device_id }
    | none => s
  if mode = "deny" then (deny_device s device_id info, "success")
  else
    let v := verify_authentication env s.auth code
    let s := { s with auth := v.1 }
    if ¬v.2 then
      ({ s with events := s.events ++ [authFailedEvent info] }, "auth_failed")
    else
      let s := { s with events := s.events ++ [authSuccessEvent info] }
      if mode = "full" then authorize_device_full env s device_id info
      else if mode = "power_only" then authorize_device_power_only env s device_id info
      else (s, "error")

/-- The second `DEVICE_DENIED` row logged by
`_handle_authorization_timeout` (path, serial and details only; no
`success` argument). -/
def timeoutDeniedEvent (info : DeviceInfo) : AuditEvent :=
  { AuditEvent.base .DEVICE_DENIED with
    device_path := some info.device_path,
    serial_number := some info.serial_number,
    details := some "Authorization timeout (auto-deny)" }

/-- `SecureUSBDaemon._handle_authorization_timeout`: when the device is
still pending, run `_deny_device` and then log an additional
`DEVICE_DENIED` row with the auto-deny details; finally drop the timer
reference.  (The fired GLib source itself is released by GLib when the
callback returns `False`.) -/
def handle_authorization_timeout (s : ServiceState) (device_id : String) :
    ServiceState :=
  let s :=
    match dictGet s.pending_authorizations device_id with
    | some info =>
      let s := deny_device s device_id info
      { s with events := s.events ++ [timeoutDeniedEvent info] }
    | none => s
  { s with timeout_timers := dictDel s.timeout_timers device_id }

/-- `SecureUSBDaemon._handle_device_connected`: log unconditionally;
allow immediately when protection is off or TOTP is unconfigured;
otherwise block, record the pending entry, emit the signal and start the
timeout timer (`GLib.timeout_add_seconds(config.get_timeout(), ...)`). -/
def handle_device_connected (s : ServiceState) (d : DeviceInfo) : ServiceState :=
  let s := { s with events := s.events ++ [deviceEvent .DEVICE_CONNECTED d] }
  if ¬s.config.is_enabled then
    { s with port_calls := s.port_calls ++ [.allow d.device_id] }
  else
    match s.auth.totp_auth with
    | none => { s with port_calls := s.port_calls ++ [.allow d.device_id] }
    | some _ =>
      let s := { s with port_calls := s.port_calls ++ [PortCall.block d.device_id] }
      let s := { s with
        pending_authorizations := dictSet s.pending_authorizations d.device_id d,
        signals := s.signals ++ [Signal.device_connected d] }
      let timeout_seconds := s.config.get_timeout
      let tid := s.next_source_id
      { s with
        glib_timers := s.glib_timers ++ [(tid, s.auth.now + timeout_seconds.toNat)],
        timeout_timers := dictSet s.timeout_timers d.device_id tid,
        next_source_id := tid + 1 }

/-- `SecureUSBDaemon._handle_device_disconnected`: log, drop the pending
entry, cancel the timer, emit the signal. -/
def handle_device_disconnected (s : ServiceState) (d : DeviceInfo) : ServiceState :=
  let s := { s with events := s.events ++ [deviceEvent .DEVICE_DISCONNECTED d] }
  let s := { s with
    pending_authorizations := dictDel s.pending_authorizations d.device_id }
  let s :=
    match dictGet s.timeout_timers d.device_id with
    | some tid =>
      { s with glib_timers := s.glib_timers.filter (fun p => p.1 ≠ tid),
               timeout_timers := dictDel s.timeout_timers d.device_id }
    | none => s
  { s with signals := s.signals ++ [.device_disconnected d.device_id] }

/-- Specification shorthand: the TOTP branch of `_verify_authentication`
(`self.totp_auth and self.totp_auth.verify_code(code)`) as a boolean. -/
def totp_accepts (env : Env) (a : AuthState) (code : String) : Bool :=
  match a.totp_auth with
  | some t => (TOTPAuthenticator.verify_code env.gen a.now t code 1).2
  | none => false

end Daemon

/-- Whether an `Except` computation finished without raising. -/
def exceptOk : Except ε α → Bool
  | .ok _ => true
  | .error _ => false

/-! # Theorems -/

/-! ## Generic helper lemmas -/

theorem toNat_ofNat_of_lt (n : Nat) (h : n < 55296) : (Char.ofNat n).toNat = n := by
  have hv : n.isValidChar := Or.inl h
  simp [Char.ofNat, dif_pos hv, Char.toNat, Char.ofNatAux, UInt32.toNat]

theorem pyUpperChar_pyLowerChar (c : Char) :
    pyUpperChar (pyLowerChar c) = pyUpperChar c := by
  unfold pyUpperChar pyLowerChar
  by_cases h : 65 ≤ c.toNat ∧ c.toNat ≤ 90
  · rw [if_pos h]
    have ht : (Char.ofNat (c.toNat + 32)).toNat = c.toNat + 32 :=
      toNat_ofNat_of_lt _ (by omega)
    rw [if_pos (by omega), if_neg (by omega), ht]
    have : c.toNat + 32 - 32 = c.toNat := by omega
    rw [this, Char.ofNat_toNat]
  · rw [if_neg h]

theorem pyLowerChar_eq_dash_iff (c : Char) : pyLowerChar c = '-' ↔ c = '-' := by
  have hd : ('-').toNat = 45 := rfl
  unfold pyLowerChar
  by_cases h : 65 ≤ c.toNat ∧ c.toNat ≤ 90
  · rw [if_pos h]
    constructor
    · intro he
      have h2 := congrArg Char.toNat he
      rw [toNat_ofNat_of_lt _ (by omega), hd] at h2
      omega
    · intro he
      subst he
      rw [hd] at h
      omega
  · rw [if_neg h]

theorem map_upper_filter_lower (l : List Char) :
    (((l.map pyLowerChar).filter (fun c => c ≠ '-')).map pyUpperChar) =
      ((l.filter (fun c => c ≠ '-')).map pyUpperChar) := by
  induction l with
  | nil => rfl
  | cons c l ih =>
    simp only [List.map_cons, List.filter_cons]
    by_cases hc : c = '-'
    · subst hc
      have h0 : pyLowerChar '-' = '-' := by decide
      rw [h0]
      simp only [ne_eq, not_true_eq_false, decide_False, Bool.false_eq_true, if_false]
      exact ih
    · have h1 : pyLowerChar c ≠ '-' := fun h => hc ((pyLowerChar_eq_dash_iff c).mp h)
      rw [if_pos (by simpa using h1), if_pos (by simpa using hc)]
      simp only [List.map_cons]
      rw [pyUpperChar_pyLowerChar]
      exact congrArg _ ih

/-- The list of characters underlying `String.mk`. -/
theorem toList_mk (l : List Char) : (String.mk l).toList = l := rfl

theorem stripDashes_pyLower (s : String) :
    pyUpper (stripDashes (stripDashes (pyLower s))) = pyUpper (stripDashes s) := by
  unfold pyUpper stripDashes pyLower
  simp only [toList_mk, List.filter_filter]
  rw [show (fun c : Char => decide (c ≠ '-') && decide (c ≠ '-')) =
        (fun c : Char => decide (c ≠ '-')) from funext (fun c => by simp)]
  exact congrArg String.mk (map_upper_filter_lower s.toList)

/-- C9: recovery-code hashing is case- and dash-insensitive:
`hash_code(code) == hash_code(code.lower().replace('-', ''))`, and
`verify_code` built on it accepts a code against a stored hash
regardless of letter case and dash placement. -/
theorem hash_code_case_dash_insensitive (sha : String → String) (code : String) :
    RecoveryCodeManager.hash_code sha code =
      RecoveryCodeManager.hash_code sha (stripDashes (pyLower code)) ∧
    ∀ hashed : String,
      RecoveryCodeManager.verify_code sha code hashed =
        RecoveryCodeManager.verify_code sha (stripDashes (pyLower code)) hashed := by
  have h : RecoveryCodeManager.hash_code sha code =
      RecoveryCodeManager.hash_code sha (stripDashes (pyLower code)) := by
    unfold RecoveryCodeManager.hash_code
    exact congrArg sha (stripDashes_pyLower code).symm
  exact ⟨h, fun hashed => by unfold RecoveryCodeManager.verify_code; rw [h]⟩

/-- C8: `set_timeout` clamps every input into `[10, 300]` — `set_timeout(5)`
stores 10, `set_timeout(500)` stores 300, `set_timeout(45)` stores 45
verbatim — and a subsequent `get_timeout` returns the clamped value. -/
theorem set_timeout_clamps (c : Config) (s : Int) :
    Config.get_timeout (Config.set_timeout c s).1 = max 10 (min 300 s) ∧
    10 ≤ Config.get_timeout (Config.set_timeout c s).1 ∧
    Config.get_timeout (Config.set_timeout c s).1 ≤ 300 ∧
    Config.get_timeout (Config.set_timeout c 5).1 = 10 ∧
    Config.get_timeout (Config.set_timeout c 500).1 = 300 ∧
    Config.get_timeout (Config.set_timeout c 45).1 = 45 := by
  unfold Config.get_timeout Config.set_timeout
  refine ⟨rfl, le_max_left _ _, max_le (by norm_num) (min_le_left _ _),
    by norm_num, by norm_num, by norm_num⟩

/-- C10: `POWER_ONLY` and `BLOCKED` carry the same sysfs value `"0"`, so
`set_power_only_mode` performs exactly the same writes to the device's
`authorized` file as `block_device` (its extra work only targets
interface `unbind` files), and neither ever writes the full-access value
`"1"`: the `authorized` writes are unchanged or extended by `(id, "0")`. -/
theorem power_only_is_block_at_sysfs :
    AuthorizationMode.POWER_ONLY.value = "0" ∧
    AuthorizationMode.POWER_ONLY.value = AuthorizationMode.BLOCKED.value ∧
    ∀ (env : SysfsEnv) (st : SysfsState) (device_id : String),
      (set_power_only_mode env st device_id).map (fun r => r.2.authorized_writes) =
        (block_device env st device_id).map (fun r => r.2.authorized_writes) ∧
      ((set_power_only_mode env st device_id).map (fun r => r.2.authorized_writes) =
          .ok st.authorized_writes ∨
       (set_power_only_mode env st device_id).map (fun r => r.2.authorized_writes) =
          .ok (st.authorized_writes ++ [(device_id, "0")]) ∨
       ∃ e, set_power_only_mode env st device_id = .error e) := by
  refine ⟨rfl, rfl, fun env st device_id => ?_⟩
  unfold set_power_only_mode block_device authorize_device unbind_interfaces
  by_cases h1 : env.is_root
  · by_cases h2 : valid_device_id device_id
    · by_cases h3 : env.authorized_exists device_id
      · by_cases h4 : env.write_fails device_id
        · simp [h1, h2, h3, h4, Except.map]
        · by_cases h5 : env.iterdir_fails device_id <;>
            simp [h1, h2, h3, h4, h5, AuthorizationMode.value, Except.map]
      · simp [h1, h2, h3, Except.map]
    · simp [h1, h2]
  · simp [h1, Except.map]

/-- C6 (amended): when the device id passes the `^[\w\-.:]+$` validation
(or when not running as root, where the root check returns first),
`authorize_device` returns `false` on every failure (missing privileges,
missing `authorized` file, write failure) and does not raise; a
malformed device id, however, makes `get_device_path` raise `ValueError`,
which `authorize_device` propagates. -/
theorem authorize_device_total (env : SysfsEnv) (st : SysfsState)
    (device_id : String) (mode : AuthorizationMode) :
    (env.is_root = false → authorize_device env st device_id mode = .ok (false, st)) ∧
    (valid_device_id device_id = true →
      exceptOk (authorize_device env st device_id mode) = true) ∧
    (env.is_root = true → valid_device_id device_id = false →
      authorize_device env st device_id mode =
        .error ("Invalid device ID: " ++ device_id)) ∧
    (valid_device_id device_id = true →
      env.authorized_exists device_id = false ∨ env.write_fails device_id = true →
      authorize_device env st device_id mode = .ok (false, st)) := by
  unfold authorize_device
  refine ⟨fun hroot => by simp [hroot], fun hvalid => ?_, fun hroot hvalid => ?_,
    fun hvalid hfail => ?_⟩
  · by_cases h1 : env.is_root
    · by_cases h3 : env.authorized_exists device_id
      · by_cases h4 : env.write_fails device_id <;> simp [h1, hvalid, h3, h4, exceptOk]
      · simp [h1, hvalid, h3, exceptOk]
    · simp [h1, exceptOk]
  · simp [hroot, hvalid]
  · by_cases h1 : env.is_root
    · rcases hfail with h3 | h4
      · simp [h1, hvalid, h3]
      · by_cases h3 : env.authorized_exists device_id <;> simp [h1, hvalid, h3, h4]
    · simp [h1]

/-- A concrete sysfs environment: running as root, every device present
and writable, no interfaces. -/
def sysfsEnvRoot : SysfsEnv :=
  { is_root := true, authorized_exists := fun _ => true,
    write_fails := fun _ => false, interfaces := fun _ => [],
    iterdir_fails := fun _ => false, unbind_possible := fun _ => false }

/-- C6 counterexample: as stated the claim is false — called as root on
the malformed device id `"../1-4"`, `authorize_device` raises
`ValueError` from `get_device_path` (the call on source line 88 sits
outside the `try` block) instead of returning `false`. -/
theorem authorize_device_raises_on_malformed_id :
    authorize_device sysfsEnvRoot ⟨[], []⟩ "../1-4" .FULL_ACCESS =
      .error "Invalid device ID: ../1-4" := by rfl

/-- Witness for the amended C6 theorem at a concrete well-formed id. -/
theorem authorize_device_total_witness :
    exceptOk (authorize_device sysfsEnvRoot ⟨[], []⟩ "1-4" .FULL_ACCESS) = true :=
  (authorize_device_total sysfsEnvRoot ⟨[], []⟩ "1-4" .FULL_ACCESS).2.1 (by decide)

/-! ## Association-list lemmas -/

theorem dictGet_dictSet_self (d : List (String × α)) (k : String) (v : α) :
    ServiceState.dictGet (ServiceState.dictSet d k v) k = some v := by
  induction d with
  | nil => simp [ServiceState.dictGet, ServiceState.dictSet]
  | cons p rest ih =>
    by_cases h : p.1 = k <;>
      simp [ServiceState.dictGet, ServiceState.dictSet, h, ih]

theorem dictGet_dictDel_self (d : List (String × α)) (k : String) :
    ServiceState.dictGet (ServiceState.dictDel d k) k = none := by
  induction d with
  | nil => rfl
  | cons p rest ih =>
    by_cases h : p.1 = k <;>
      simp [ServiceState.dictGet, ServiceState.dictDel, h, List.filter_cons] at ih ⊢ <;>
      simpa [ServiceState.dictGet, h] using ih

/-! ## Frame lemmas for failed verification -/

theorem totp_verify_code_fail_frame (gen : Int → String) (now : Nat)
    (t : TOTPAuthenticator) (code : String) (w : Nat)
    (h : (TOTPAuthenticator.verify_code gen now t code w).2 = false) :
    (TOTPAuthenticator.verify_code gen now t code w).1 = t := by
  unfold TOTPAuthenticator.verify_code at h ⊢
  dsimp only at h ⊢
  split_ifs at h ⊢ <;> simp_all

theorem verify_authentication_fail_frame (env : Env) (a : AuthState) (code : String)
    (h : (Daemon.verify_authentication env a code).2 = false) :
    (Daemon.verify_authentication env a code).1 = a := by
  obtain ⟨n, ta, rc, st⟩ := a
  unfold Daemon.verify_authentication at h ⊢
  by_cases hc : code = ""
  · simp [hc]
  · simp only [hc, if_false, ite_false] at h ⊢
    cases ta with
    | none =>
      unfold Daemon.verify_recovery at h ⊢
      dsimp only at h ⊢
      cases hf : List.find?
          (fun hh => RecoveryCodeManager.verify_code env.sha code hh) rc with
      | none => simp [hf]
      | some hh => simp [hf] at h
    | some t =>
      dsimp only at h ⊢
      by_cases hv : (TOTPAuthenticator.verify_code env.gen n t code 1).2 = true
      · simp [hv] at h
      · simp only [Bool.not_eq_true] at hv
        have hframe := totp_verify_code_fail_frame env.gen n t code 1 hv
        rw [hframe] at h ⊢
        simp only [hv, Bool.false_eq_true, if_false] at h ⊢
        unfold Daemon.verify_recovery at h ⊢
        dsimp only at h ⊢
        cases hf : List.find?
            (fun hh => RecoveryCodeManager.verify_code env.sha code hh) rc with
        | none => simp [hf]
        | some hh => simp [hf] at h

/-! ## Concrete fixtures -/

/-- A deterministic stand-in for the pyotp generator: the code at
time-step counter 0 is `"123456"`, all other counters give `"654321"`. -/
def genTest : Int → String := fun step => if step = 0 then "123456" else "654321"

/-- Concrete service environment: TOTP accepts `"123456"` around time 0,
the hash primitive is a tagged identity, every port call succeeds,
nothing is whitelisted, the credential store is writable. -/
def envTest : Env :=
  { gen := genTest, sha := fun str => str ++ "#", portOk := fun _ => true,
    whitelisted := fun _ => false, storage_save_fails := false }

/-- A concrete connected device. -/
def deviceA : DeviceInfo :=
  { device_id := "1-1", device_path := "/sys/bus/usb/devices/1-1",
    vendor_id := "046d", product_id := "c52b", vendor_name := "Foo",
    product_name := "Bar", serial_number := "ABC" }

/-- Daemon state with `deviceA` pending and its 30-second timer armed
(GLib source id 7, deadline 30). -/
def statePending : ServiceState :=
  { auth := { now := 0, totp_auth := some ⟨none, 0⟩, recovery_codes := [],
              storage := ⟨some ("SECRET", [])⟩ },
    config := { enabled := true, timeout_seconds := 30, save_ok := true },
    pending_authorizations := [("1-1", deviceA)],
    timeout_timers := [("1-1", 7)], glib_timers := [(7, 30)],
    next_source_id := 8,
    events := [], port_calls := [], signals := [], whitelist_usage := [] }

/-- The same daemon but with no pending entry and no timer for any
device (e.g. `deviceA` already disconnected or timed out). -/
def stateEmpty : ServiceState :=
  { statePending with
    pending_authorizations := [], timeout_timers := [], glib_timers := [] }

/-! ## C3 — invalid-code decision -/

/-- C3 (amended): for every pending device, an authorize/power-only
decision carrying an invalid code reports `"auth_failed"` and leaves the
pending table, the authentication state, the port-call stream and the
signal stream unchanged (only the `AUTH_FAILED` audit row is appended);
but, contrary to the original claim, the timeout timer is cancelled at
the start of decision handling, so after the failed attempt no deadline
remains armed for the device — the entry stays pending indefinitely. -/
theorem invalid_code_leaves_pending_but_cancels_timer
    (env : Env) (s : ServiceState) (info d : DeviceInfo) (code mode : String)
    (hpend : ServiceState.dictGet s.pending_authorizations info.device_id = some d)
    (hmode : mode = "full" ∨ mode = "power_only")
    (hver : (Daemon.verify_authentication env s.auth code).2 = false) :
    (Daemon.handle_authorization_request env s info code mode).2 = "auth_failed" ∧
    (Daemon.handle_authorization_request env s info code mode).1.pending_authorizations =
      s.pending_authorizations ∧
    (Daemon.handle_authorization_request env s info code mode).1.auth = s.auth ∧
    (Daemon.handle_authorization_request env s info code mode).1.port_calls =
      s.port_calls ∧
    (Daemon.handle_authorization_request env s info code mode).1.signals = s.signals ∧
    (Daemon.handle_authorization_request env s info code mode).1.events =
      s.events ++ [Daemon.authFailedEvent info] ∧
    ServiceState.dictGet
      (Daemon.handle_authorization_request env s info code mode).1.timeout_timers
      info.device_id = none := by
  have hnd : ¬(mode = "deny") := by rcases hmode with h | h <;> subst h <;> simp
  have hframe := verify_authentication_fail_frame env s.auth code hver
  unfold Daemon.handle_authorization_request
  cases hm : ServiceState.dictGet s.timeout_timers info.device_id with
  | none =>
    simp only [hm, hnd, if_false, ite_false]
    simp only [hver, hframe, Bool.false_eq_true, not_false_eq_true, if_true, ite_true]
    simp [hm]
  | some tid =>
    simp only [hm, hnd, if_false, ite_false]
    simp only [hver, hframe, Bool.false_eq_true, not_false_eq_true, if_true, ite_true]
    simp [dictGet_dictDel_self]

/-- Witness for the amended C3 theorem: `deviceA` is pending, the code
`"000000"` is invalid, and the decision leaves it pending with no timer
armed. -/
theorem invalid_code_leaves_pending_witness :
    (Daemon.handle_authorization_request envTest statePending deviceA
      "000000" "full").2 = "auth_failed" ∧
    (Daemon.handle_authorization_request envTest statePending deviceA
      "000000" "full").1.pending_authorizations = statePending.pending_authorizations :=
  have h := invalid_code_leaves_pending_but_cancels_timer envTest statePending
    deviceA deviceA "000000" "full" (by decide) (Or.inl rfl) (by decide)
  ⟨h.1, h.2.1⟩

/-- C3 counterexample: the claim as stated is false — after an invalid
`"000000"` decision for the pending `deviceA`, the pending entry does
remain, but its timeout timer is no longer armed (the timer-id map entry
and the GLib source are both gone), so no deadline protects the device
any more. -/
theorem invalid_code_cancels_timer_ce :
    (Daemon.handle_authorization_request envTest statePending deviceA
      "000000" "full").2 = "auth_failed" ∧
    ServiceState.dictGet (Daemon.handle_authorization_request envTest statePending
      deviceA "000000" "full").1.pending_authorizations "1-1" = some deviceA ∧
    ServiceState.dictGet (Daemon.handle_authorization_request envTest statePending
      deviceA "000000" "full").1.timeout_timers "1-1" = none ∧
    (Daemon.handle_authorization_request envTest statePending deviceA
      "000000" "full").1.glib_timers = [] := by
  decide

/-! ## C1 — decisions for devices with no pending entry -/

/-- C1 (amended): the authorization handler never consults the pending
table before acting — a decision whose `device_id` has no pending entry
is processed exactly like any other: the code is verified and, when it
is valid and the port call succeeds (mode `"full"`), the
port is asked to allow the device, an authorization-result signal is
emitted, and `"success"` is returned.  No distinct "stale"/"no such
pending device" result exists in the code. -/
theorem stale_decision_processed_normally
    (env : Env) (s : ServiceState) (info : DeviceInfo) (code : String)
    (hnp : ServiceState.dictGet s.pending_authorizations info.device_id = none)
    (hver : (Daemon.verify_authentication env s.auth code).2 = true)
    (hport : env.portOk (.allow info.device_id) = true) :
    (Daemon.handle_authorization_request env s info code "full").2 = "success" ∧
    (Daemon.handle_authorization_request env s info code "full").1.port_calls =
      s.port_calls ++ [.allow info.device_id] ∧
    (Daemon.handle_authorization_request env s info code "full").1.signals =
      s.signals ++ [.authorization_result info.device_id "authorized" true] := by
  unfold Daemon.handle_authorization_request Daemon.authorize_device_full
  cases hm : ServiceState.dictGet s.timeout_timers info.device_id with
  | none =>
    simp [hm, hver, hport] <;> split_ifs <;> simp
  | some tid =>
    simp [hm, hver, hport] <;> split_ifs <;> simp

/-- Witness for the amended C1 theorem: with no pending entry for
`"1-1"`, a valid-code full-access decision still returns `"success"`. -/
theorem stale_decision_processed_witness :
    (Daemon.handle_authorization_request envTest stateEmpty deviceA
      "123456" "full").2 = "success" :=
  (stale_decision_processed_normally envTest stateEmpty deviceA "123456"
    (by decide) (by decide) (by decide)).1

/-- C1 counterexample: the claim as stated is false — `deviceA` has no
pending entry in `stateEmpty` (it already disconnected or timed out),
yet the handler verifies the code, issues the allow port call, emits an
authorization result, and returns `"success"` rather than any distinct
stale result. -/
theorem stale_decision_not_rejected_ce :
    (Daemon.handle_authorization_request envTest stateEmpty deviceA
      "123456" "full").2 = "success" ∧
    (Daemon.handle_authorization_request envTest stateEmpty deviceA
      "123456" "full").1.port_calls = [.allow "1-1"] ∧
    (Daemon.handle_authorization_request envTest stateEmpty deviceA
      "123456" "full").1.signals =
      [.authorization_result "1-1" "authorized" true] ∧
    (Daemon.handle_authorization_request envTest stateEmpty deviceA
      "123456" "full").1.events.map (fun e => e.action) =
      [.AUTH_SUCCESS, .DEVICE_AUTHORIZED] := by
  decide

/-! ## C5 — timeout auto-deny -/

/-- C5: when the deadline of the pending `deviceA` elapses with no
decision, the timeout handler blocks the device, removes the pending
entry and the timer reference, and emits the denial signal — but it
records TWO `DEVICE_DENIED` audit rows, not one: `_deny_device` first
logs one with details `"User denied authorization"`, then the timeout
handler logs a second with details `"Authorization timeout (auto-deny)"`. -/
theorem timeout_denial_logged_twice :
    (Daemon.handle_authorization_timeout statePending "1-1").port_calls =
      [.block "1-1"] ∧
    (Daemon.handle_authorization_timeout statePending "1-1").pending_authorizations =
      [] ∧
    (Daemon.handle_authorization_timeout statePending "1-1").timeout_timers = [] ∧
    (Daemon.handle_authorization_timeout statePending "1-1").signals =
      [.authorization_result "1-1" "denied" false] ∧
    (Daemon.handle_authorization_timeout statePending "1-1").events.map
        (fun e => (e.action, e.details)) =
      [(.DEVICE_DENIED, some "User denied authorization"),
       (.DEVICE_DENIED, some "Authorization timeout (auto-deny)")] := by
  decide

/-! ## C7 — device-connect handling -/

/-- C7: every connect event is logged unconditionally; if protection is
disabled or no credential is configured, Full access is applied
immediately and handling stops (no pending entry, no timer, no signal);
otherwise Blocked is applied, the pending entry is recorded, the
connect signal emitted, and a cancellable timer armed with deadline
`now + configured timeout`. -/
theorem connect_blocks_and_arms_timer (s : ServiceState) (d : DeviceInfo) :
    (Daemon.handle_device_connected s d).events =
      s.events ++ [Daemon.deviceEvent .DEVICE_CONNECTED d] ∧
    (if s.config.is_enabled = false ∨ s.auth.totp_auth = none then
      (Daemon.handle_device_connected s d).port_calls =
        s.port_calls ++ [.allow d.device_id] ∧
      (Daemon.handle_device_connected s d).pending_authorizations =
        s.pending_authorizations ∧
      (Daemon.handle_device_connected s d).timeout_timers = s.timeout_timers ∧
      (Daemon.handle_device_connected s d).glib_timers = s.glib_timers ∧
      (Daemon.handle_device_connected s d).signals = s.signals
    else
      (Daemon.handle_device_connected s d).port_calls =
        s.port_calls ++ [.block d.device_id] ∧
      ServiceState.dictGet (Daemon.handle_device_connected s d).pending_authorizations
        d.device_id = some d ∧
      (Daemon.handle_device_connected s d).signals =
        s.signals ++ [.device_connected d] ∧
      ServiceState.dictGet (Daemon.handle_device_connected s d).timeout_timers
        d.device_id = some s.next_source_id ∧
      (Daemon.handle_device_connected s d).glib_timers = s.glib_timers ++
        [(s.next_source_id, s.auth.now + (Config.get_timeout s.config).toNat)]) := by
  unfold Daemon.handle_device_connected
  by_cases he : s.config.is_enabled = true
  · cases ht : s.auth.totp_auth with
    | none => simp [he, ht]
    | some t => simp [he, ht, dictGet_dictSet_self]
  · simp only [Bool.not_eq_true, Config.is_enabled] at he
    simp [Config.is_enabled, he]

/-! ## C4 — TOTP window and replay guard -/

/-- Characterization of `TOTPAuthenticator.verify_code` at the default
window 1: it accepts exactly the normalized 6-digit codes matching the
generator within one time-step either way, unless the replay guard
fires. -/
theorem totp_verify_code_spec (gen : Int → String) (t : TOTPAuthenticator)
    (now : Nat) (code : String) :
    (TOTPAuthenticator.verify_code gen now t code 1).2 = true ↔
      ((pyIsDigit (stripSpacesDashes code) ∧ (stripSpacesDashes code).length = 6) ∧
       ¬(t.last_used_code = some (stripSpacesDashes code) ∧
          now < t.last_used_time + 30) ∧
       TOTPAuthenticator.pyotpVerify gen now 1 (stripSpacesDashes code) = true) := by
  unfold TOTPAuthenticator.verify_code
  dsimp only
  split_ifs with h1 h2 h3 <;> simp_all

/-- On acceptance, the replay memory is set to the normalized code and
the acceptance time. -/
theorem totp_verify_code_success_state (gen : Int → String) (t : TOTPAuthenticator)
    (now : Nat) (code : String)
    (h : (TOTPAuthenticator.verify_code gen now t code 1).2 = true) :
    (TOTPAuthenticator.verify_code gen now t code 1).1 =
      ⟨some (stripSpacesDashes code), now⟩ := by
  unfold TOTPAuthenticator.verify_code at h ⊢
  dsimp only at h ⊢
  split_ifs at h ⊢ <;> simp_all

/-- C4: TOTP verification accepts a 6-digit code iff it matches the
current code or a code within ±1 time-step, except that a code identical
to the immediately-previously-accepted one presented again within 30
seconds is rejected; in particular the first verification of a valid
code succeeds and an identical second call inside the 30-second window
fails. -/
theorem totp_window_accept_and_replay_reject (gen : Int → String)
    (t : TOTPAuthenticator) (now : Nat) (code : String) :
    ((TOTPAuthenticator.verify_code gen now t code 1).2 = true ↔
      ((pyIsDigit (stripSpacesDashes code) ∧ (stripSpacesDashes code).length = 6) ∧
       ¬(t.last_used_code = some (stripSpacesDashes code) ∧
          now < t.last_used_time + 30) ∧
       TOTPAuthenticator.pyotpVerify gen now 1 (stripSpacesDashes code) = true)) ∧
    ((TOTPAuthenticator.verify_code gen now t code 1).2 = true →
      ∀ now2 : Nat, now2 < now + 30 →
        (TOTPAuthenticator.verify_code gen now2
          (TOTPAuthenticator.verify_code gen now t code 1).1 code 1).2 = false) := by
  refine ⟨totp_verify_code_spec gen t now code, fun hsucc now2 hlt => ?_⟩
  have hstate := totp_verify_code_success_state gen t now code hsucc
  rw [hstate]
  have hspec := totp_verify_code_spec gen
    (⟨some (stripSpacesDashes code), now⟩ : TOTPAuthenticator) now2 code
  rcases hb : (TOTPAuthenticator.verify_code gen now2
      (⟨some (stripSpacesDashes code), now⟩ : TOTPAuthenticator) code 1).2 with _ | _
  · rfl
  · exfalso
    have := (hspec.mp hb).2.1
    exact this ⟨rfl, by simpa using hlt⟩

/-- Witness for C4: with the generator producing `"123456"` at counter
0, the first verification at time 5 succeeds and the identical call at
time 20 (inside the same 30-second window) fails. -/
theorem totp_replay_reject_witness :
    (TOTPAuthenticator.verify_code genTest 5 ⟨none, 0⟩ "123456" 1).2 = true ∧
    (TOTPAuthenticator.verify_code genTest 20
      (TOTPAuthenticator.verify_code genTest 5 ⟨none, 0⟩ "123456" 1).1
      "123456" 1).2 = false :=
  ⟨by decide,
   (totp_window_accept_and_replay_reject genTest ⟨none, 0⟩ 5 "123456").2
     (by decide) 20 (by decide)⟩

/-! ## C2 — single-use recovery codes -/

theorem verify_recovery_not_found (env : Env) (a : AuthState) (code : String)
    (h : RecoveryCodeManager.hash_code env.sha code ∉ a.recovery_codes) :
    Daemon.verify_recovery env a code = (a, false) := by
  unfold Daemon.verify_recovery
  have hf : a.recovery_codes.find?
      (fun hh => RecoveryCodeManager.verify_code env.sha code hh) = none := by
    refine List.find?_eq_none.2 fun x hx hpx => h ?_
    have hx2 : RecoveryCodeManager.hash_code env.sha code = x := by
      simpa [RecoveryCodeManager.verify_code] using hpx
    rwa [hx2]
  rw [hf]

theorem verify_recovery_found (env : Env) (a : AuthState) (code : String)
    (hsucc : (Daemon.verify_recovery env a code).2 = true) :
    RecoveryCodeManager.hash_code env.sha code ∈ a.recovery_codes ∧
    (Daemon.verify_recovery env a code).1 =
      { a with
        storage := (SecureStorage.remove_recovery_code env.storage_save_fails
          a.storage (RecoveryCodeManager.hash_code env.sha code)).1,
        recovery_codes :=
          a.recovery_codes.erase (RecoveryCodeManager.hash_code env.sha code) } := by
  unfold Daemon.verify_recovery at hsucc ⊢
  cases hf : a.recovery_codes.find?
      (fun hh => RecoveryCodeManager.verify_code env.sha code hh) with
  | none => rw [hf] at hsucc; simp at hsucc
  | some h0 =>
    have hmem := List.mem_of_find?_eq_some hf
    have hpx := List.find?_some hf
    have heq : RecoveryCodeManager.hash_code env.sha code = h0 := by
      simpa [RecoveryCodeManager.verify_code] using hpx
    constructor
    · rw [heq]; exact hmem
    · simp only [hf]
      rw [heq]

theorem verify_authentication_totp_fail (env : Env) (a : AuthState) (code : String)
    (hc : ¬(code = "")) (htotp : Daemon.totp_accepts env a code = false) :
    Daemon.verify_authentication env a code = Daemon.verify_recovery env a code := by
  obtain ⟨n, ta, rc, st⟩ := a
  unfold Daemon.verify_authentication
  simp only [hc, if_false, ite_false]
  cases ta with
  | none => rfl
  | some t =>
    unfold Daemon.totp_accepts at htotp
    dsimp only at htotp ⊢
    have hframe := totp_verify_code_fail_frame env.gen n t code 1 htotp
    simp [htotp, hframe]

/-- C2 (amended): a recovery-code verification that returns success has
removed the matching hash from the in-memory set and attempted its
removal from persisted storage before reporting success; when persisting
succeeds the hash is gone from the persisted store, and the same code
can never verify again within the same daemon instance.  Contrary to the
original claim, however, a failure to persist the removal does NOT
prevent success: the result of `SecureStorage.remove_recovery_code` is
ignored, so the code may verify again after reloading from the persisted
store. -/
theorem recovery_code_single_use (env : Env) (a : AuthState) (code : String)
    (htotp : Daemon.totp_accepts env a code = false)
    (hsucc : (Daemon.verify_authentication env a code).2 = true)
    (hnodup : a.recovery_codes.Nodup) :
    RecoveryCodeManager.hash_code env.sha code ∈ a.recovery_codes ∧
    (Daemon.verify_authentication env a code).1.recovery_codes =
      a.recovery_codes.erase (RecoveryCodeManager.hash_code env.sha code) ∧
    (Daemon.verify_authentication env
        (Daemon.verify_authentication env a code).1 code).2 = false ∧
    (env.storage_save_fails = false →
      ∀ secret codes, a.storage.auth_data = some (secret, codes) →
        RecoveryCodeManager.hash_code env.sha code ∈ codes →
        (Daemon.verify_authentication env a code).1.storage.auth_data =
          some (secret,
            codes.erase (RecoveryCodeManager.hash_code env.sha code))) := by
  have hc : ¬(code = "") := by
    intro h
    subst h
    rw [show Daemon.verify_authentication env a "" = (a, false) from rfl] at hsucc
    simp at hsucc
  have hva := verify_authentication_totp_fail env a code hc htotp
  rw [hva] at hsucc ⊢
  obtain ⟨hmem, hstate⟩ := verify_recovery_found env a code hsucc
  refine ⟨hmem, by rw [hstate], ?_, ?_⟩
  · have h2totp : Daemon.totp_accepts env
        (Daemon.verify_recovery env a code).1 code = false := by
      rw [hstate]
      unfold Daemon.totp_accepts at htotp ⊢
      exact htotp
    have h2va := verify_authentication_totp_fail env
      (Daemon.verify_recovery env a code).1 code hc h2totp
    rw [h2va]
    have hnot : RecoveryCodeManager.hash_code env.sha code ∉
        (Daemon.verify_recovery env a code).1.recovery_codes := by
      rw [hstate]
      exact hnodup.not_mem_erase
    rw [verify_recovery_not_found env (Daemon.verify_recovery env a code).1 code hnot]
  · intro hsf secret codes hdata hmemcodes
    rw [hstate]
    dsimp only
    unfold SecureStorage.remove_recovery_code
    rw [hdata]
    simp [hmemcodes, SecureStorage.save_auth_data, hsf]

/-- An auth state holding one recovery-code hash `"ABC#"` (the model
hash of the code `"abc"` under `envTest.sha`), persisted alongside. -/
def authRecovery : AuthState :=
  { now := 0, totp_auth := some ⟨none, 0⟩, recovery_codes := ["ABC#"],
    storage := ⟨some ("SECRET", ["ABC#"])⟩ }

/-- `envTest` but with every write of the credential store failing. -/
def envSaveFails : Env := { envTest with storage_save_fails := true }

/-- Witness for the amended C2 theorem: the hash of `"abc"` is stored,
verification succeeds once, and the same code fails on the resulting
state. -/
theorem recovery_code_single_use_witness :
    RecoveryCodeManager.hash_code envTest.sha "abc" ∈ authRecovery.recovery_codes ∧
    (Daemon.verify_authentication envTest
      (Daemon.verify_authentication envTest authRecovery "abc").1 "abc").2 = false :=
  have h := recovery_code_single_use envTest authRecovery "abc"
    (by decide) (by decide) (by decide)
  ⟨h.1, h.2.2.1⟩

/-- C2 counterexample: the claim as stated is false — when persisting
the removal fails, `_verify_authentication` still reports success
(source line 277 ignores the returned `False`), and the hash is still in
the persisted store, so a daemon reloading from it (which yields exactly
`authRecovery` again) accepts the same recovery code a second time. -/
theorem recovery_persist_failure_reports_success_ce :
    (Daemon.verify_authentication envSaveFails authRecovery "abc").2 = true ∧
    (SecureStorage.remove_recovery_code true authRecovery.storage "ABC#").2 = false ∧
    (Daemon.verify_authentication envSaveFails authRecovery "abc").1.storage.auth_data =
      some ("SECRET", ["ABC#"]) := by
  decide

end SecureUSB
